import Mathlib

/-!
Verification of the Bully leader-election node (Python reference:
`src/lamport.py`, `src/election.py`, `src/node.py`, `src/network.py`).

The Python classes are shallowly embedded as pure Lean functions over
explicit state records.  Side-effecting operations (spawning a sender
thread, starting an election thread) are returned as explicit effect
lists so theorems can count and inspect them.
-/

namespace LamportClock

/-- `LamportClock.tick` (`src/lamport.py`): `self.time += 1; return self.time`.
The state is the `time` attribute; the returned value equals the new state. -/
def tick (time : Int) : Int := time + 1

/-- `LamportClock.update` (`src/lamport.py`): `int(remote_ts)` may fail, in
which case the method degrades to `tick()`.  The argument is the result of
that conversion: `none` when `remote_ts` is absent or not convertible to an
integer, `some r` otherwise.  On success: `self.time = max(self.time, r) + 1`. -/
def update (time : Int) (remote : Option Int) : Int :=
  match remote with
  | none => tick time
  | some r => max time r + 1

/-- One call in a `tick()` / `update(r)` call sequence. -/
inductive ClockOp where
  | tick : ClockOp
  | update (remote : Option Int) : ClockOp
deriving DecidableEq, Repr

/-- Apply one clock operation to the current `time`. -/
def applyOp (time : Int) : ClockOp → Int
  | .tick => tick time
  | .update r => update time r

/-- Run a sequence of clock operations from a starting `time`. -/
def runOps (time : Int) : List ClockOp → Int
  | [] => time
  | op :: ops => runOps (applyOp time op) ops

end LamportClock

namespace Bully

/-- ASCII whitespace stripped by Python `int(str)` before parsing. -/
def isPySpace (c : Char) : Bool :=
  c = ' ' ∨ c = '\t' ∨ c = '\n' ∨ c = '\r' ∨ c = '\x0b' ∨ c = '\x0c'

def stripChars (l : List Char) : List Char :=
  ((l.dropWhile isPySpace).reverse.dropWhile isPySpace).reverse

def digitsVal (l : List Char) : Nat :=
  l.foldl (fun a c => a * 10 + (c.toNat - 48)) 0

/-- Model of Python `int(s)` applied to a string: leading/trailing whitespace
is stripped, an optional sign is followed by a non-empty run of decimal
digits; anything else raises, modelled as `none`. -/
def pyParseInt (s : String) : Option Int :=
  match stripChars s.toList with
  | [] => none
  | c :: rest =>
    if c = '-' then
      if rest ≠ [] ∧ rest.all Char.isDigit then some (-(digitsVal rest : Int)) else none
    else if c = '+' then
      if rest ≠ [] ∧ rest.all Char.isDigit then some (digitsVal rest) else none
    else
      if (c :: rest).all Char.isDigit then some (digitsVal (c :: rest)) else none

/-- Python truthiness of an optional string (`if sender_addr:`): `None` and
the empty string are falsy. -/
def pyTruthyStr : Option String → Bool
  | none => false
  | some s => s != ""

/-- Variant-specific payload of a wire message (`payload.addr`,
`payload.leader`); a missing key is `none`. -/
structure Payload where
  addr : Option String
  leader : Option String
deriving DecidableEq, Repr

/-- A wire message as seen by `BullyElection.handle_message`: a dict with a
`type`, an optional `from` entry (outer `none` = key absent, inner `none` =
key present with value `None`), and a payload. -/
structure Msg where
  mtype : String
  fromField : Option (Option String)
  payload : Payload
deriving DecidableEq, Repr

/-- `int(msg.get("from", -1))` wrapped in try/except: an absent key defaults
to `-1`; a `None` value or a non-numeric string leaves `from_id = None`. -/
def computeFromId : Option (Option String) → Option Int
  | none => some (-1)
  | some none => none
  | some (some s) => pyParseInt s

/-- The `ELECTION` message built in `start_election`. -/
def electionMsg (selfId : Int) (selfAddr : String) : Msg :=
  ⟨"ELECTION", some (some (toString selfId)), ⟨some selfAddr, none⟩⟩

/-- The `OK` reply built in `handle_message`. -/
def okMsg (selfId : Int) (selfAddr : String) : Msg :=
  ⟨"OK", some (some (toString selfId)), ⟨some selfAddr, none⟩⟩

/-- The `COORDINATOR` announcement built in `start_election`. -/
def coordMsg (selfId : Int) (selfAddr : String) : Msg :=
  ⟨"COORDINATOR", some (some (toString selfId)), ⟨some selfAddr, some (toString selfId)⟩⟩

/-- The `PING` message built in `heartbeat_loop` (`src/node.py`). -/
def pingMsg (nodeId : Int) (addr : String) : Msg :=
  ⟨"PING", some (some (toString nodeId)), ⟨some addr, none⟩⟩

/-- The mutable state of a `BullyElection` instance (`src/election.py`):
`id`, `peer_map`, `addr`, `leader_id`, the `_ok_event` signal and the
`_election_lock` guard. -/
structure BullyState where
  id : Int
  peer_map : List (Int × String)
  addr : String
  leader_id : Option Int
  ok_event : Bool
  election_lock : Bool
deriving DecidableEq, Repr

/-- Effects of one `handle_message` call: the new state, the messages handed
to sender threads (target address, message), and the number of
`start_election` threads spawned. -/
structure HandleResult where
  state : BullyState
  sends : List (String × Msg)
  electionStarts : Nat
deriving DecidableEq, Repr

/-- `BullyElection.handle_message`, dispatching on `msg["type"]`. -/
def handle_message (s : BullyState) (msg : Msg) : HandleResult :=
  let fromId := computeFromId msg.fromField
  if msg.mtype = "ELECTION" then
    let senderAddr := msg.payload.addr
    match fromId with
    | some k =>
      if k < s.id then
        let reply := okMsg s.id s.addr
        let sends := if pyTruthyStr senderAddr then [(senderAddr.getD "", reply)] else []
        ⟨s, sends, 1⟩
      else
        ⟨s, [], 0⟩
    | none => ⟨s, [], 0⟩
  else if msg.mtype = "OK" then
    ⟨{ s with ok_event := true }, [], 0⟩
  else if msg.mtype = "COORDINATOR" then
    let leaderId := match msg.payload.leader with
      | none => none
      | some l => pyParseInt l
    ⟨{ s with leader_id := leaderId }, [], 0⟩
  else
    ⟨s, [], 0⟩

/-- Effects of one `start_election` call: the state at exit, the `ELECTION`
messages handed to sender threads and the `COORDINATOR` broadcast. -/
structure StartResult where
  state : BullyState
  electionSends : List (String × Msg)
  coordinatorSends : List (String × Msg)
deriving DecidableEq, Repr

/-- `BullyElection.start_election`.  `got_ok` is the outcome of
`self._ok_event.wait(timeout=self.ok_timeout)`: whether an `OK` message set
the event before the timeout.  The `finally` clause releases the lock on
every exit path, so `election_lock` is `false` at exit whenever the guard
was acquired; when the non-blocking acquire fails the call is a no-op. -/
def start_election (s : BullyState) (got_ok : Bool) : StartResult :=
  if s.election_lock then
    ⟨s, [], []⟩
  else
    let higher := s.peer_map.filter (fun p => p.1 > s.id)
    if higher.isEmpty then
      ⟨{ s with ok_event := false, leader_id := some s.id, election_lock := false },
        [], s.peer_map.map (fun p => (p.2, coordMsg s.id s.addr))⟩
    else
      let eSends := higher.map (fun p => (p.2, electionMsg s.id s.addr))
      if got_ok then
        ⟨{ s with ok_event := true, election_lock := false }, eSends, []⟩
      else
        ⟨{ s with ok_event := false, leader_id := some s.id, election_lock := false },
          eSends, s.peer_map.map (fun p => (p.2, coordMsg s.id s.addr))⟩

/-- Effects of one iteration of the `heartbeat_loop` body (`src/node.py`):
the `PING` sends attempted (one per configured peer) and the ids of the
peers whose probe failure spawned a `start_election` thread.  `fails pid
url` is the oracle for `network.send_rpc` raising on that probe. -/
structure HeartbeatResult where
  pings : List (String × Msg)
  electionStarts : List Int
deriving DecidableEq, Repr

def heartbeatTick (nodeId : Int) (addr : String) (peer_map : List (Int × String))
    (leader_id : Option Int) (fails : Int → String → Bool) : HeartbeatResult :=
  let pings := peer_map.map (fun p => (p.2, pingMsg nodeId addr))
  let starts := (peer_map.filter (fun p =>
      fails p.1 p.2 && (match leader_id with
        | some l => p.1 == l
        | none => false))).map (fun p => p.1)
  ⟨pings, starts⟩

end Bully

/-! ## Properties of the logical clock -/

namespace LamportClock

theorem applyOp_ge (time : Int) (op : ClockOp) : time + 1 ≤ applyOp time op := by
  cases op with
  | tick => simp [applyOp, tick]
  | update r =>
    cases r with
    | none => simp [applyOp, update, tick]
    | some r =>
      simp only [applyOp, update]
      have h := le_max_left time r
      omega

theorem runOps_mono (ops : List ClockOp) : ∀ time : Int, time ≤ runOps time ops := by
  induction ops with
  | nil => intro time; simp [runOps]
  | cons op ops ih =>
    intro time
    have h1 := applyOp_ge time op
    have h2 := ih (applyOp time op)
    simp only [runOps]
    omega

theorem runOps_append (ops more : List ClockOp) (time : Int) :
    runOps time (ops ++ more) = runOps (runOps time ops) more := by
  induction ops generalizing time with
  | nil => simp [runOps]
  | cons op ops ih => simp [runOps, ih]

/-- C8: over every finite sequence of `tick()` / `update(r)` calls starting
from the initial clock value 0, the `time` attribute is non-decreasing
(extending the sequence never lowers it), and each individual call strictly
increases it by at least 1. -/
theorem clock_calls_strictly_increase (ops more : List ClockOp) (op : ClockOp) :
    runOps 0 ops + 1 ≤ runOps 0 (ops ++ [op])
    ∧ runOps 0 ops ≤ runOps 0 (ops ++ more) := by
  constructor
  · rw [runOps_append]
    simpa [runOps] using applyOp_ge (runOps 0 ops) op
  · rw [runOps_append]
    exact runOps_mono more (runOps 0 ops)

/-- C9: `update(r)` sets the clock to `max(previousTime, r) + 1` and returns
that value in all three cases `r < t`, `r = t`, `r > t`; when the remote
timestamp is absent or not convertible to an integer, `update` degrades to
`tick()`, incrementing the clock by exactly 1. -/
theorem clock_update_max_rule (t r : Int) :
    update t (some r) = max t r + 1
    ∧ (r < t → update t (some r) = t + 1)
    ∧ (r = t → update t (some r) = t + 1)
    ∧ (t < r → update t (some r) = r + 1)
    ∧ update t none = tick t
    ∧ update t none = t + 1 := by
  refine ⟨rfl, ?_, ?_, ?_, rfl, rfl⟩ <;>
    · intro h
      simp only [update]
      omega

/-- Witness for C9 at concrete inputs. -/
theorem clock_update_max_rule_witness :
    update 5 (some 3) = 5 + 1 ∧ update 5 (some 9) = 9 + 1 :=
  ⟨(clock_update_max_rule 5 3).2.1 (by norm_num),
   (clock_update_max_rule 5 9).2.2.2.1 (by norm_num)⟩

end LamportClock

/-! ## Properties of the election state machine -/

namespace Bully

/-- C1 (as stated, refuted): a COORDINATOR message whose `payload.leader` is
the non-numeric string "abc" does NOT leave `leader_id` unchanged: the code
assigns the failed-conversion result `None`, clearing the previous leader 5. -/
theorem coordinator_malformed_counterexample :
    (handle_message ⟨1, [], "http://a", some 5, false, false⟩
        ⟨"COORDINATOR", some (some "2"), ⟨none, some "abc"⟩⟩).state.leader_id
      ≠ some 5 := by decide

/-- C1 (amended): for every COORDINATOR message whose `payload.leader` is
absent or not convertible to an integer, `handle_message` overwrites
`leader_id` with `None` (rather than leaving it unchanged); handling is total
on such messages, so it never crashes. -/
theorem coordinator_malformed_sets_leader_none
    (s : BullyState) (msg : Msg)
    (htype : msg.mtype = "COORDINATOR")
    (hmal : ∀ l, msg.payload.leader = some l → pyParseInt l = none) :
    (handle_message s msg).state.leader_id = none := by
  have h1 : ¬ msg.mtype = "ELECTION" := by rw [htype]; decide
  have h2 : ¬ msg.mtype = "OK" := by rw [htype]; decide
  simp only [handle_message, if_neg h1, if_neg h2, if_pos htype]
  cases hpl : msg.payload.leader with
  | none => rfl
  | some l => simp [hmal l hpl]

/-- Witness for the amended C1 at a concrete malformed message. -/
theorem coordinator_malformed_sets_leader_none_witness :
    (handle_message ⟨1, [], "http://a", some 5, false, false⟩
        ⟨"COORDINATOR", some (some "2"), ⟨none, some "xyz"⟩⟩).state.leader_id = none :=
  coordinator_malformed_sets_leader_none _ _ rfl
    (by intro l hl; cases hl; decide)

/-- C6: a COORDINATOR message whose `payload.leader` converts to the integer
`n` sets `leader_id = n` unconditionally, for every prior state (including a
different previously-set leader) — last write wins, no timestamp check. -/
theorem coordinator_numeric_overwrites
    (s : BullyState) (msg : Msg) (l : String) (n : Int)
    (htype : msg.mtype = "COORDINATOR")
    (hleader : msg.payload.leader = some l)
    (hparse : pyParseInt l = some n) :
    (handle_message s msg).state.leader_id = some n := by
  have h1 : ¬ msg.mtype = "ELECTION" := by rw [htype]; decide
  have h2 : ¬ msg.mtype = "OK" := by rw [htype]; decide
  simp only [handle_message, if_neg h1, if_neg h2, if_pos htype, hleader, hparse]

/-- Witness for C6: leader 7 announced while `leader_id` was already 3. -/
theorem coordinator_numeric_overwrites_witness :
    (handle_message ⟨1, [], "http://a", some 3, false, false⟩
        ⟨"COORDINATOR", some (some "2"), ⟨none, some "7"⟩⟩).state.leader_id = some 7 :=
  coordinator_numeric_overwrites _ _ "7" 7 rfl rfl (by decide)

/-- C3: on an ELECTION message whose sender id converts to `k`: if `k` is
strictly below `self.id` (and the sender advertised a truthy address),
exactly one OK reply carrying this node's address goes to that address and
exactly one concurrent election is started; if `k ≥ self.id`, no reply is
sent and no election is started. -/
theorem election_lower_sender_ok_and_race
    (s : BullyState) (msg : Msg) (k : Int)
    (htype : msg.mtype = "ELECTION")
    (hfrom : computeFromId msg.fromField = some k) :
    (k < s.id → pyTruthyStr msg.payload.addr = true →
      (handle_message s msg).sends = [(msg.payload.addr.getD "", okMsg s.id s.addr)]
      ∧ (handle_message s msg).electionStarts = 1)
    ∧ (s.id ≤ k →
      (handle_message s msg).sends = [] ∧ (handle_message s msg).electionStarts = 0) := by
  simp only [handle_message, if_pos htype, hfrom]
  constructor
  · intro hk htr
    simp [if_pos hk, htr]
  · intro hk
    simp [if_neg (not_lt.mpr hk)]

/-- Witness for C3 at a concrete lower-id challenger and a concrete
higher-id sender. -/
theorem election_lower_sender_ok_and_race_witness :
    ((handle_message ⟨5, [], "http://me", none, false, false⟩
        ⟨"ELECTION", some (some "2"), ⟨some "http://s", none⟩⟩).sends
      = [("http://s", okMsg 5 "http://me")]
      ∧ (handle_message ⟨5, [], "http://me", none, false, false⟩
          ⟨"ELECTION", some (some "2"), ⟨some "http://s", none⟩⟩).electionStarts = 1)
    ∧ ((handle_message ⟨5, [], "http://me", none, false, false⟩
        ⟨"ELECTION", some (some "9"), ⟨some "http://s", none⟩⟩).sends = []
      ∧ (handle_message ⟨5, [], "http://me", none, false, false⟩
          ⟨"ELECTION", some (some "9"), ⟨some "http://s", none⟩⟩).electionStarts = 0) :=
  ⟨(election_lower_sender_ok_and_race _ _ 2 rfl (by decide)).1 (by decide) (by decide),
   (election_lower_sender_ok_and_race _ _ 9 rfl (by decide)).2 (by decide)⟩

/-- C10: an ELECTION message with the `from` key entirely absent defaults the
sender id to `-1`, so for a non-negative `self.id` it is handled like any
lower-id challenger (OK reply when a truthy address is advertised, one
election started); a `from` value that is a non-numeric string yields
`from_id = None`, triggering neither reply nor election; and a lower-id
ELECTION without `payload.addr` sends no OK but still starts one election. -/
theorem election_from_field_defaults (s : BullyState) (msg : Msg) :
    computeFromId none = some (-1)
    ∧ (msg.mtype = "ELECTION" → msg.fromField = none → 0 ≤ s.id →
        (handle_message s msg).electionStarts = 1
        ∧ (pyTruthyStr msg.payload.addr = true →
            (handle_message s msg).sends
              = [(msg.payload.addr.getD "", okMsg s.id s.addr)]))
    ∧ (msg.mtype = "ELECTION" → ∀ t, msg.fromField = some (some t) →
        pyParseInt t = none →
        (handle_message s msg).sends = [] ∧ (handle_message s msg).electionStarts = 0)
    ∧ (msg.mtype = "ELECTION" → ∀ k, computeFromId msg.fromField = some k → k < s.id →
        msg.payload.addr = none →
        (handle_message s msg).sends = [] ∧ (handle_message s msg).electionStarts = 1) := by
  refine ⟨rfl, ?_, ?_, ?_⟩
  · intro htype hff hid
    have hk : (-1 : Int) < s.id := by omega
    simp only [handle_message, if_pos htype, hff, computeFromId, if_pos hk]
    exact ⟨by trivial, fun htr => by simp [htr]⟩
  · intro htype t hff hparse
    simp [handle_message, if_pos htype, hff, computeFromId, hparse]
  · intro htype k hfrom hk haddr
    simp [handle_message, if_pos htype, hfrom, if_pos hk, haddr, pyTruthyStr]

/-- Witness for C10: an ELECTION with no `from` key at node 1 starts exactly
one election and replies OK to the advertised address. -/
theorem election_from_field_defaults_witness :
    (handle_message ⟨1, [], "http://me", none, false, false⟩
        ⟨"ELECTION", none, ⟨some "http://s", none⟩⟩).electionStarts = 1
    ∧ (handle_message ⟨1, [], "http://me", none, false, false⟩
        ⟨"ELECTION", none, ⟨some "http://s", none⟩⟩).sends
      = [("http://s", okMsg 1 "http://me")] := by
  have h := (election_from_field_defaults ⟨1, [], "http://me", none, false, false⟩
      ⟨"ELECTION", none, ⟨some "http://s", none⟩⟩).2.1 rfl rfl (by norm_num)
  exact ⟨h.1, h.2 (by decide)⟩

end Bully

namespace Bully

/-- C2: with the guard free and at least one higher-id peer configured,
`start_election` sends ELECTION exactly to the peers with id strictly above
`self.id` (and only to those); on timeout without OK (`got_ok = false`) it
self-promotes (`leader_id = self.id`) and broadcasts COORDINATOR to every
peer in the directory; when an OK arrives in time (`got_ok = true`) the
leader is left unchanged and no COORDINATOR is sent this round. -/
theorem start_election_higher_peers
    (s : BullyState) (got_ok : Bool)
    (hlock : s.election_lock = false)
    (hhigher : s.peer_map.filter (fun p => p.1 > s.id) ≠ []) :
    (start_election s got_ok).electionSends
        = (s.peer_map.filter (fun p => p.1 > s.id)).map
            (fun p => (p.2, electionMsg s.id s.addr))
    ∧ (∀ x ∈ (start_election s got_ok).electionSends,
        ∃ p, p ∈ s.peer_map ∧ p.1 > s.id ∧ x = (p.2, electionMsg s.id s.addr))
    ∧ (got_ok = false →
        (start_election s got_ok).state.leader_id = some s.id
        ∧ (start_election s got_ok).coordinatorSends
            = s.peer_map.map (fun p => (p.2, coordMsg s.id s.addr)))
    ∧ (got_ok = true →
        (start_election s got_ok).state.leader_id = s.leader_id
        ∧ (start_election s got_ok).coordinatorSends = []) := by
  have hne : (s.peer_map.filter (fun p => p.1 > s.id)).isEmpty = false := by
    simp [List.isEmpty_eq_false, hhigher]
  have hsends : (start_election s got_ok).electionSends
      = (s.peer_map.filter (fun p => p.1 > s.id)).map
          (fun p => (p.2, electionMsg s.id s.addr)) := by
    cases got_ok <;> simp [start_election, hlock, hne]
  refine ⟨hsends, ?_, ?_, ?_⟩
  · intro x hx
    rw [hsends] at hx
    obtain ⟨p, hp, rfl⟩ := List.mem_map.mp hx
    have hmf := List.mem_filter.mp hp
    exact ⟨p, hmf.1, by simpa using hmf.2, rfl⟩
  · rintro rfl
    constructor <;> simp [start_election, hlock, hne]
  · rintro rfl
    constructor <;> simp [start_election, hlock, hne]

/-- Witness for C2: peers `{2, 3}`, self id 1, guard free.  With no OK the
node self-promotes and broadcasts; with an OK the leader stays unchanged. -/
theorem start_election_higher_peers_witness :
    (start_election ⟨1, [(2, "u2"), (3, "u3")], "u1", none, false, false⟩ false).electionSends
        = [("u2", electionMsg 1 "u1"), ("u3", electionMsg 1 "u1")]
    ∧ (start_election ⟨1, [(2, "u2"), (3, "u3")], "u1", none, false, false⟩ false).state.leader_id
        = some 1
    ∧ (start_election ⟨1, [(2, "u2"), (3, "u3")], "u1", none, false, false⟩ false).coordinatorSends
        = [("u2", coordMsg 1 "u1"), ("u3", coordMsg 1 "u1")]
    ∧ (start_election ⟨1, [(2, "u2"), (3, "u3")], "u1", none, false, false⟩ true).state.leader_id
        = none
    ∧ (start_election ⟨1, [(2, "u2"), (3, "u3")], "u1", none, false, false⟩ true).coordinatorSends
        = [] := by
  have hf := start_election_higher_peers
      ⟨1, [(2, "u2"), (3, "u3")], "u1", none, false, false⟩ false rfl (by decide)
  have ht := start_election_higher_peers
      ⟨1, [(2, "u2"), (3, "u3")], "u1", none, false, false⟩ true rfl (by decide)
  have h1 := hf.2.2.1 rfl
  have h2 := ht.2.2.2 rfl
  refine ⟨?_, h1.1, ?_, h2.1, h2.2⟩
  · rw [hf.1]; decide
  · rw [h1.2]; decide

/-- C4: with the guard free and no configured peer above `self.id`,
`start_election` immediately self-promotes: `leader_id = self.id`, zero
ELECTION sends, and a COORDINATOR announcing `self.id` as leader is handed
to a sender thread for every peer in the directory. -/
theorem start_election_no_higher_peers
    (s : BullyState) (got_ok : Bool)
    (hlock : s.election_lock = false)
    (hnone : ∀ p ∈ s.peer_map, ¬ p.1 > s.id) :
    (start_election s got_ok).state.leader_id = some s.id
    ∧ (start_election s got_ok).electionSends = []
    ∧ (start_election s got_ok).coordinatorSends
        = s.peer_map.map (fun p => (p.2, coordMsg s.id s.addr))
    ∧ (coordMsg s.id s.addr).payload.leader = some (toString s.id) := by
  have hfil : s.peer_map.filter (fun p => p.1 > s.id) = [] := by
    rw [List.filter_eq_nil_iff]
    intro p hp
    simpa using hnone p hp
  refine ⟨?_, ?_, ?_, rfl⟩ <;> simp [start_election, hlock, hfil]

/-- Witness for C4: a directory whose only peer has a lower id. -/
theorem start_election_no_higher_peers_witness :
    (start_election ⟨3, [(2, "u2")], "u3", none, false, false⟩ false).state.leader_id = some 3
    ∧ (start_election ⟨3, [(2, "u2")], "u3", none, false, false⟩ false).electionSends = []
    ∧ (start_election ⟨3, [(2, "u2")], "u3", none, false, false⟩ false).coordinatorSends
        = [("u2", coordMsg 3 "u3")] := by
  have h := start_election_no_higher_peers ⟨3, [(2, "u2")], "u3", none, false, false⟩ false rfl
      (by decide)
  exact ⟨h.1, h.2.1, h.2.2.1⟩

/-- C5: when the `_election_lock` guard is already held, `start_election` is
a no-op — the state (including the in-flight round's `_ok_event` and
`leader_id`) is untouched and nothing is sent; and whenever the guard is
acquired, the `finally` clause releases it on every exit path. -/
theorem start_election_guard_noop (s : BullyState) (got_ok : Bool) :
    (s.election_lock = true → start_election s got_ok = ⟨s, [], []⟩)
    ∧ (s.election_lock = false →
        (start_election s got_ok).state.election_lock = false) := by
  constructor
  · intro h
    simp [start_election, h]
  · intro h
    by_cases hemp : (s.peer_map.filter (fun p => p.1 > s.id)).isEmpty = true
    · simp [start_election, h, hemp]
    · rw [Bool.not_eq_true] at hemp
      cases got_ok <;> simp [start_election, h, hemp]

/-- Witness for C5: a held guard leaves the state (ok signal set, leader 2)
untouched and produces no sends; a free guard is released by the round. -/
theorem start_election_guard_noop_witness :
    start_election ⟨1, [(2, "u2")], "u1", some 2, true, true⟩ false
      = ⟨⟨1, [(2, "u2")], "u1", some 2, true, true⟩, [], []⟩
    ∧ (start_election ⟨1, [(2, "u2")], "u1", some 2, true, false⟩ false).state.election_lock
      = false :=
  ⟨(start_election_guard_noop ⟨1, [(2, "u2")], "u1", some 2, true, true⟩ false).1 rfl,
   (start_election_guard_noop ⟨1, [(2, "u2")], "u1", some 2, true, false⟩ false).2 rfl⟩

end Bully

namespace Bully

theorem count_filter_map_fst (q : Int × String → Bool) :
    ∀ (l : List (Int × String)) (pid : Int) (url : String),
      (l.map Prod.fst).Nodup → (pid, url) ∈ l →
      ((l.filter q).map Prod.fst).count pid = if q (pid, url) then 1 else 0 := by
  intro l
  induction l with
  | nil => intro pid url _ h; cases h
  | cons a l ih =>
    intro pid url hnd hmem
    rw [List.map_cons, List.nodup_cons] at hnd
    obtain ⟨hna, hndl⟩ := hnd
    rcases List.mem_cons.mp hmem with heq | hmeml
    · subst heq
      have hzero : ((l.filter q).map Prod.fst).count pid = 0 := by
        rw [List.count_eq_zero]
        intro hpid
        obtain ⟨p, hpf, hfst⟩ := List.mem_map.mp hpid
        have hm : p.1 ∈ l.map Prod.fst := List.mem_map_of_mem Prod.fst (List.mem_of_mem_filter hpf)
        rw [hfst] at hm
        exact hna hm
      by_cases hqa : q (pid, url) = true
      · simp [List.filter_cons, hqa, List.count_cons, hzero]
      · rw [Bool.not_eq_true] at hqa
        simp [List.filter_cons, hqa, hzero]
    · have hane : a.1 ≠ pid := by
        intro hc
        apply hna
        rw [hc]
        exact List.mem_map_of_mem Prod.fst hmeml
      have hrec := ih pid url hndl hmeml
      by_cases hqa : q a = true
      · simp [List.filter_cons, hqa, List.count_cons, hane, hrec]
      · rw [Bool.not_eq_true] at hqa
        simp [List.filter_cons, hqa, hrec]

/-- C7: in one heartbeat tick a PING is attempted to every configured peer,
and — with the directory's peer ids unique, as the design requires — a
failed probe of a peer spawns exactly one `start_election` thread exactly
when that peer's id is the currently known leader; a failed probe of a
non-leader peer spawns none. -/
theorem heartbeat_tick_spec
    (nodeId : Int) (addr : String) (peer_map : List (Int × String))
    (leader_id : Option Int) (fails : Int → String → Bool) :
    (heartbeatTick nodeId addr peer_map leader_id fails).pings
        = peer_map.map (fun p => (p.2, pingMsg nodeId addr))
    ∧ ((peer_map.map Prod.fst).Nodup →
        ∀ pid url, (pid, url) ∈ peer_map →
          (heartbeatTick nodeId addr peer_map leader_id fails).electionStarts.count pid
            = if fails pid url = true ∧ leader_id = some pid then 1 else 0) := by
  refine ⟨rfl, ?_⟩
  intro hnd pid url hmem
  have hcnt := count_filter_map_fst
      (fun p => fails p.1 p.2 && (match leader_id with
        | some l => p.1 == l
        | none => false)) peer_map pid url hnd hmem
  have hrw : (heartbeatTick nodeId addr peer_map leader_id fails).electionStarts
      = (peer_map.filter (fun p => fails p.1 p.2 && (match leader_id with
          | some l => p.1 == l
          | none => false))).map Prod.fst := rfl
  rw [hrw, hcnt]
  cases leader_id with
  | none => simp
  | some l =>
    by_cases hf : fails pid url = true
    · by_cases he : pid = l
      · subst he
        simp [hf]
      · have h1 : ((pid == l) : Bool) = false := by simp [he]
        have h2 : ¬ (some l = some pid) := by
          intro hc
          injection hc with hc
          exact he hc.symm
        simp [hf, h1, h2]
    · rw [Bool.not_eq_true] at hf
      simp [hf]

/-- Witness for C7: leader 2; a failed probe of peer 2 triggers exactly one
election, a failed probe of non-leader peer 3 triggers none. -/
theorem heartbeat_tick_spec_witness :
    (heartbeatTick 1 "u1" [(2, "u2"), (3, "u3")] (some 2)
        (fun pid _ => pid == 2)).electionStarts.count 2 = 1
    ∧ (heartbeatTick 1 "u1" [(2, "u2"), (3, "u3")] (some 2)
        (fun pid _ => pid == 3)).electionStarts.count 3 = 0 := by
  have h1 := (heartbeat_tick_spec 1 "u1" [(2, "u2"), (3, "u3")] (some 2)
      (fun pid _ => pid == 2)).2 (by decide) 2 "u2" (by decide)
  have h2 := (heartbeat_tick_spec 1 "u1" [(2, "u2"), (3, "u3")] (some 2)
      (fun pid _ => pid == 3)).2 (by decide) 3 "u3" (by decide)
  rw [h1, h2]
  constructor <;> decide

end Bully
